import Mathlib

/-!
Verification development for the Owl retirement planner.

The pluggable rate-model subsystem (`BaseRateModel`, the `user_fixed`
model, `load_plugin`, `Plan.setRates`, `Plan.regenRates`) is embedded
from the Python code in the repository's design documents; the MILP
engine (constraint builder, self-consistent loop, tax calculator) is
not part of the repository sources, so those components are modelled
from the specification, as flagged in their doc comments.
-/

namespace Owl

/-- Python exceptions raised by the rate-model subsystem. -/
inductive PyError where
  | valueError (msg : String)
  | runtimeError (msg : String)
  deriving DecidableEq, Repr

/-- A Python float: either a finite value (modelled as a rational) or one
of the IEEE non-finite values. -/
inductive PyFloat where
  | val (q : ℚ)
  | nan
  | inf
  | ninf
  deriving DecidableEq, Repr

/-- `numpy.isfinite` on a `PyFloat`. -/
def PyFloat.isFinite : PyFloat → Bool
  | .val _ => true
  | _ => false

/-! ## `load_plugin` (owlplanner/rate_models/loader.py, part_021 lines 147-158) -/

/-- A loaded Python module, reduced to its attribute table: the names it
defines, each bound to a value of type `α` (here, a class object). -/
structure PyModule (α : Type) where
  attrs : List (String × α)

/-- `hasattr(module, name)` / `module.name` as one lookup. -/
def PyModule.getattr {α : Type} (m : PyModule α) (name : String) : Option α :=
  m.attrs.lookup name

/-- `load_plugin(path)` from part_021: executes the module at `path`
(modelled by the oracle `loadModule`), then returns its `RateModel`
attribute, or raises `RuntimeError("Plugin must define class RateModel")`
when that attribute is absent. -/
def load_plugin {α : Type} (loadModule : String → PyModule α) (path : String) :
    Except PyError α :=
  let module := loadModule path
  match module.getattr "RateModel" with
  | some c => .ok c
  | none => .error (.runtimeError "Plugin must define class RateModel")

/-! ## The `user_fixed` rate model (docs/plugable-example.md) -/

/-- The `RateModel` class of `owlplanner/rate_models/user_fixed.py`:
its fields after a successful `__init__`. `rates` is `self._rates`,
the percent values converted to decimals. -/
structure UserFixedRateModel where
  N : Nat
  seed : Option Nat
  reproducible : Bool
  rates : List ℚ
  deriving DecidableEq, Repr

/-- `RateModel.__init__(N, values=None, **kwargs)` of user_fixed.py:
raises `ValueError` when `values` is missing or does not have exactly
4 entries, otherwise stores `values / 100`. -/
def UserFixedRateModel.init (N : Nat) (seed : Option Nat) (reproducible : Bool)
    (values : Option (List ℚ)) : Except PyError UserFixedRateModel :=
  match values with
  | none => .error (.valueError "UserFixedRateModel requires \x27values\x27 parameter.")
  | some vs =>
    if vs.length ≠ 4 then .error (.valueError "values must contain 4 entries.")
    else .ok ⟨N, seed, reproducible, vs.map (fun v => v / 100)⟩

/-- `RateModel.generate()` of user_fixed.py: `np.tile(self._rates, (self.N, 1))`,
an `N × 4` matrix whose every row is `self._rates`. -/
def UserFixedRateModel.generate (m : UserFixedRateModel) : List (List ℚ) :=
  List.replicate m.N m.rates

/-- `RateModel.needs_regen` of user_fixed.py. -/
def UserFixedRateModel.needs_regen (_ : UserFixedRateModel) : Bool := false

/-! ## `Plan.setRates` and `Plan.regenRates` (part_021, Steps 4 and 5) -/

/-- A generated rate series: row-major `N × 4` matrix, as returned by
`model.generate()`. -/
abbrev RateMatrix := List (List PyFloat)

/-- `series.shape == (rows, 4)` for a row-major matrix. -/
def matrixShapeIs (m : RateMatrix) (rows cols : Nat) : Bool :=
  (m.length == rows) && m.all (fun r => r.length == cols)

/-- A constructed rate-model object, reduced to the two members
`Plan.setRates`/`Plan.regenRates` consult: the series its `generate()`
call returns, and its `needs_regen` property. -/
structure RateModelObj where
  generate : RateMatrix
  needs_regen : Bool
  deriving DecidableEq, Repr

/-- The keyword arguments of `Plan.setRates`. -/
structure SetRatesArgs where
  method : String
  frm : Option Int
  to_ : Option Int
  values : Option (List ℚ)
  stdev : Option (List ℚ)
  corr : Option (List (List ℚ))
  method_file : Option String
  override_reproducible : Bool
  reverse : Bool
  roll : Int
  deriving DecidableEq, Repr

/-- The fields of `Plan` read or written by `setRates`/`regenRates`. -/
structure Plan where
  N_n : Nat
  reproducibleRates : Bool
  rateSeed : Option Nat
  tau_kn : RateMatrix
  gamma_n : List PyFloat
  rateMethod : String
  rateFrm : Option Int
  rateTo : Option Int
  rateValues : Option (List ℚ)
  rateStdev : Option (List ℚ)
  rateCorr : Option (List (List ℚ))
  rateReverse : Bool
  rateRoll : Int
  rateModel : Option RateModelObj
  adjustedParameters : Bool
  caseStatus : String
  deriving DecidableEq, Repr

/-- Collaborators `setRates` calls but whose bodies are outside this
repository: the plugin loader plus plugin-class constructor (which may
raise), the `LegacyRateModel` constructor, the private helpers
`_apply_rate_sequence_transform` and `_genGamma_n`, and the wall clock
used for time-based seeds. -/
structure RatesEnv where
  loadPluginModel : String → Nat → Option Nat → Bool → SetRatesArgs →
    Except PyError RateModelObj
  legacyModel : Nat → Option Nat → Bool → Bool → SetRatesArgs → RateModelObj
  applySeqTransform : RateMatrix → Bool → Int → RateMatrix
  genGamma_n : RateMatrix → List PyFloat
  now : Nat

/-- The seed block of `Plan.setRates` (part_021 lines 178-188): returns
the seed passed to the model and the new value of `self.rateSeed`, or
raises the configuration `RuntimeError`. -/
def seedLogic (p : Plan) (a : SetRatesArgs) (now : Nat) :
    Except PyError (Option Nat × Option Nat) :=
  if a.method = "stochastic" ∨ a.method = "histochastic" then
    if p.reproducibleRates ∧ ¬ a.override_reproducible then
      match p.rateSeed with
      | none =>
        .error (.runtimeError
          "Config error: reproducibleRates is True but rateSeed is None.")
      | some s => .ok (some s, some s)
    else
      .ok (some now, if a.override_reproducible then p.rateSeed else some now)
  else .ok (none, p.rateSeed)

/-- The model-selection block of `Plan.setRates` (part_021 lines
194-224): a plugin model when `method_file` is given, the
`LegacyRateModel` otherwise. -/
def constructedModel (env : RatesEnv) (p : Plan) (a : SetRatesArgs)
    (seed : Option Nat) : Except PyError RateModelObj :=
  match a.method_file with
  | some f => env.loadPluginModel f p.N_n seed p.reproducibleRates a
  | none =>
    .ok (env.legacyModel p.N_n seed p.reproducibleRates a.override_reproducible a)

/-- `Plan.setRates` from part_021 Step 4: seed logic, model selection,
`series = model.generate()`, the shape check raising
`ValueError("Rate model returned incorrect shape.")`, the
reverse/roll transform, and the state stores. -/
def setRates (env : RatesEnv) (p : Plan) (a : SetRatesArgs) :
    Except PyError Plan :=
  match seedLogic p a env.now with
  | .error e => .error e
  | .ok (seed, rateSeed2) =>
    match constructedModel env p a seed with
    | .error e => .error e
    | .ok model =>
      let series := model.generate
      if matrixShapeIs series p.N_n 4 = false then
        .error (.valueError "Rate model returned incorrect shape.")
      else
        let tau0 := series.transpose
        let tau :=
          if a.reverse || a.roll != 0 then env.applySeqTransform tau0 a.reverse a.roll
          else tau0
        .ok { p with
          rateSeed := rateSeed2,
          tau_kn := tau,
          rateMethod := a.method,
          rateFrm := a.frm,
          rateTo := a.to_,
          rateReverse := a.reverse,
          rateRoll := a.roll,
          rateModel := some model,
          gamma_n := env.genGamma_n tau,
          adjustedParameters := false,
          caseStatus := "modified" }

/-- The argument record `Plan.regenRates` passes back to `setRates`
(part_021 lines 282-292), with the stored decimal values rescaled to
percent. -/
def regenArgs (p : Plan) (override_reproducible : Bool) : SetRatesArgs :=
  { method := p.rateMethod,
    frm := p.rateFrm,
    to_ := p.rateTo,
    values := p.rateValues.map (fun v => v.map (fun x => 100 * x)),
    stdev := p.rateStdev.map (fun v => v.map (fun x => 100 * x)),
    corr := p.rateCorr,
    method_file := none,
    override_reproducible := override_reproducible,
    reverse := p.rateReverse,
    roll := p.rateRoll }

/-- `Plan.regenRates` from part_021 Step 5: early return when there is
no stored `_rateModel`, when the model's `needs_regen` is false, or when
`reproducibleRates` holds and reproducibility is not overridden;
otherwise it re-invokes `setRates`. -/
def regenRates (env : RatesEnv) (p : Plan) (override_reproducible : Bool) :
    Except PyError Plan :=
  match p.rateModel with
  | none => .ok p
  | some m =>
    if m.needs_regen = false then .ok p
    else if p.reproducibleRates ∧ ¬ override_reproducible then .ok p
    else setRates env p (regenArgs p override_reproducible)

/-- `Except.isOk` specialised, to keep statements executable. -/
def exceptIsOk {ε α : Type} : Except ε α → Bool
  | .ok _ => true
  | .error _ => false

/-- The fixed model for the C7 counterexample: its `generate()` returns a
correctly-shaped `1 × 4` matrix whose first entry is `nan`. -/
def nanModel : RateModelObj :=
  ⟨[[.nan, .val 0, .val 0, .val 0]], false⟩

/-- The environment for the C7 counterexample: the legacy constructor
produces `nanModel`, and the remaining collaborators are trivial. -/
def nanEnv : RatesEnv :=
  ⟨fun _ _ _ _ _ => .error (.runtimeError "no plugin"),
    fun _ _ _ _ _ => nanModel, fun t _ _ => t, fun _ => [], 0⟩

/-- The plan for the C7 counterexample: one plan-year, no reproducibility. -/
def nanPlan : Plan :=
  ⟨1, false, none, [], [], "", none, none, none, none, none, false, 0, none,
    false, "unsolved"⟩

/-- The `setRates` arguments for the C7 counterexample: the non-stochastic
`user` method with no plugin file. -/
def nanArgs : SetRatesArgs :=
  ⟨"user", none, none, none, none, none, none, false, false, 0⟩

/-!
## The MILP engine, modelled from the specification

The constraint builder, the tax calculator, and the self-consistent loop
controller are not part of the repository sources (the repository ships
their documentation in PARAMETERS.md, RELEASE_NOTES.md and README.md).
The definitions below model them from the specification, as their doc
comments state.
-/

/-- The two objectives of the planner. -/
inductive Objective where
  | maxSpending
  | maxBequest
  deriving DecidableEq, Repr

/-- The engine's error taxonomy (spec section 7), reduced to the members
the claims need. -/
inductive EngineError where
  | configurationError (msg : String)
  | infeasible
  deriving DecidableEq, Repr

/-- The objective-target options of `solver_options` (PARAMETERS.md). -/
structure BuilderOptions where
  objective : Objective
  bequest : Option ℚ
  netSpending : Option ℚ
  deriving DecidableEq, Repr

/-- One built MILP instance, reduced to the resolved objective targets. -/
structure MILPInstance where
  bequestTarget : Option ℚ
  netSpendingTarget : Option ℚ
  deriving DecidableEq, Repr

/-- Modelled from the spec: the Constraint/Objective Builder's resolution
of the bequest/net-spending targets (the Builder itself is missing from
the sources). Spec section 4.3 makes supplying both targets a
`ConfigurationError`; the in-repository PARAMETERS.md `solver_options`
table additionally fixes that an omitted `bequest` under `maxSpending`
defaults to `1`, and that `netSpending` is required for `maxBequest`. -/
def buildMILP (o : BuilderOptions) : Except EngineError MILPInstance :=
  if o.bequest.isSome ∧ o.netSpending.isSome then
    .error (.configurationError "both bequest and netSpending targets supplied")
  else
    match o.objective with
    | .maxSpending => .ok ⟨some (o.bequest.getD 1), none⟩
    | .maxBequest =>
      match o.netSpending with
      | none =>
        .error (.configurationError "netSpending target required for maxBequest")
      | some s => .ok ⟨none, some s⟩

/-- The report a solver returns for one built instance. -/
structure SolveReport where
  status : String
  objectiveValue : ℚ
  deriving DecidableEq, Repr

/-- Modelled from the spec: one scenario solve — the Builder runs first,
and the solver is invoked only on a successfully built instance, so a
Builder failure means no MILP solve is attempted. -/
def solveScenario (solver : MILPInstance → SolveReport) (o : BuilderOptions) :
    Except EngineError SolveReport :=
  match buildMILP o with
  | .error e => .error e
  | .ok inst => .ok (solver inst)

/-- Modelled from the spec: one iterate of the self-consistent loop — its
objective value and the solution it carries (identified abstractly). -/
structure Candidate where
  objective : ℚ
  solutionId : Nat
  deriving DecidableEq, Repr

/-- Non-fatal warnings the Controller can attach to an accepted Solution. -/
inductive LoopWarning where
  | oscillationDetected
  deriving DecidableEq, Repr

/-- Outcome of a self-consistent loop run. -/
inductive LoopOutcome where
  | accepted (c : Candidate) (warnings : List LoopWarning)
  | failed (reason : String)
  deriving DecidableEq, Repr

/-- Executable absolute value on the rationals. -/
def ratAbs (q : ℚ) : ℚ := if q < 0 then -q else q

/-- All pairs of objectives in the window lie within `nearTol` of one
another. -/
def nearEqualWindow (w : List ℚ) (nearTol : ℚ) : Bool :=
  w.all (fun x => w.all (fun y => decide (ratAbs (x - y) ≤ nearTol)))

/-- Modelled from the spec: oscillation detection over a short history
window (most recent iterate first): at least four iterates whose
objectives all lie within `nearTol` of one another — a small set of
near-equal values — while the two most recent still differ by more than
the convergence tolerance `convTol`, so the sequence cycles without
converging. -/
def detectOscillation (hist : List Candidate) (nearTol convTol : ℚ) : Bool :=
  match hist with
  | c1 :: c2 :: _ =>
    decide (4 ≤ hist.length) &&
      nearEqualWindow ((hist.take 4).map Candidate.objective) nearTol &&
      decide (convTol < ratAbs (c1.objective - c2.objective))
  | _ => false

/-- The candidate with the smaller objective, keeping the current one on
exact ties. -/
def minCand (b d : Candidate) : Candidate :=
  if d.objective < b.objective then d else b

/-- Modelled from the spec: the oscillation recovery policy —
deterministically select, among the candidates, the one with the smallest
objective value (the first such candidate on exact ties). -/
def selectConservative : List Candidate → Option Candidate
  | [] => none
  | c :: cs => some (cs.foldl minCand c)

/-- Modelled from the spec: the Controller's disposition of an oscillating
history — emit the conservative candidate as an accepted Solution carrying
an `OscillationDetected` warning, never a hard failure. -/
def resolveOscillation (hist : List Candidate) (nearTol convTol : ℚ) :
    Option LoopOutcome :=
  if detectOscillation hist nearTol convTol then
    match selectConservative (hist.take 4) with
    | some c => some (.accepted c [.oscillationDetected])
    | none => none
  else none

/-- Modelled from the spec: the account-balance recurrence of section 4.1,
`balance[a,t+1] = balance[a,t]*(1+return[a,t]) + deposits[a,t] -
withdrawals[a,t] - conversions_out[a,t] + conversions_in[a,t]`. -/
def nextBalance (bal ret dep wd cOut cIn : ℚ) : ℚ :=
  bal * (1 + ret) + dep - wd - cOut + cIn

/-- Modelled from the spec: the per-year flows of one account in an
accepted Solution. -/
structure AccountFlows where
  ret : Nat → ℚ
  dep : Nat → ℚ
  wd : Nat → ℚ
  cOut : Nat → ℚ
  cIn : Nat → ℚ

/-- Modelled from the spec: the balance series the recurrence determines
from the year-0 balance — the balances of an accepted Solution. -/
def balanceSeries (f : AccountFlows) (b0 : ℚ) : Nat → ℚ
  | 0 => b0
  | t + 1 =>
    nextBalance (balanceSeries f b0 t) (f.ret t) (f.dep t) (f.wd t)
      (f.cOut t) (f.cIn t)

/-- Hand-computed compound growth: the year-0 balance grown by each year's
return in turn. -/
def compoundGrowth (b0 : ℚ) (ret : Nat → ℚ) : Nat → ℚ
  | 0 => b0
  | t + 1 => compoundGrowth b0 ret t * (1 + ret t)

/-- Modelled from the spec: one account-year of decisions governed by the
Roth AMO constraint family — the Roth conversion amount, the tax-free
withdrawal amount, and the binary exclusion flag. -/
structure RothCell where
  conversion : ℚ
  tfWithdrawal : ℚ
  flag : Bool
  deriving DecidableEq, Repr

/-- Modelled from the spec: the big-M at-most-one constraints tying the two
amounts of an account-year to its binary flag, together with the
non-negativity of the amounts. -/
def amoRothConstraints (bigM : ℚ) (c : RothCell) : Prop :=
  0 ≤ c.conversion ∧ 0 ≤ c.tfWithdrawal ∧
  c.conversion ≤ bigM * (if c.flag then 1 else 0) ∧
  c.tfWithdrawal ≤ bigM * (1 - (if c.flag then 1 else 0))

/-- Modelled from the spec: the account-year cells of one Solution. -/
structure AmoSolution where
  cells : List RothCell

/-- Modelled from the spec: a Solution is accepted with `amoRoth` enabled
only if every account-year cell satisfies the AMO Roth constraints. -/
def acceptedWithAmoRoth (amoRoth : Bool) (bigM : ℚ) (s : AmoSolution) : Prop :=
  amoRoth = true → ∀ c ∈ s.cells, amoRothConstraints bigM c

/-- Modelled from the spec: the outcome of one feasible candidate plan of a
scenario — its total net spending and its final bequest. -/
structure PlanOutcome where
  netSpending : ℚ
  finalBequest : ℚ
  deriving DecidableEq, Repr

/-- The best (largest) value in a list. -/
def bestObjective : List ℚ → Option ℚ
  | [] => none
  | x :: xs =>
    match bestObjective xs with
    | none => some x
    | some b => some (max x b)

/-- Modelled from the spec: under objective `maxSpending`, the achievable
optimal net spending with bequest target `b` — the best net spending among
the candidate plans whose final bequest meets the target. -/
def optimalNetSpending (cands : List PlanOutcome) (b : ℚ) : Option ℚ :=
  bestObjective
    ((cands.filter (fun p => decide (b ≤ p.finalBequest))).map PlanOutcome.netSpending)

/-- Filing status for the Social Security taxability thresholds. -/
inductive Filing where
  | single
  | marriedJoint
  deriving DecidableEq, Repr

/-- Lower provisional-income threshold: $25k single, $32k married filing
jointly. -/
def ssLowerThreshold : Filing → ℚ
  | .single => 25000
  | .marriedJoint => 32000

/-- Upper provisional-income threshold: $34k single, $44k married filing
jointly. -/
def ssUpperThreshold : Filing → ℚ
  | .single => 34000
  | .marriedJoint => 44000

/-- Modelled from the spec: the IRS provisional-income formula for the
taxable amount of Social Security benefits (RELEASE_NOTES 2026.02.23;
the Tax Calculator itself is missing from the sources): nothing taxable
below the lower threshold, up to 50 percent of benefits between the
thresholds, up to 85 percent above the upper threshold. -/
def taxableSSAmount (st : Filing) (provIncome ssBenefit : ℚ) : ℚ :=
  if provIncome ≤ ssLowerThreshold st then 0
  else if provIncome ≤ ssUpperThreshold st then
    min ((provIncome - ssLowerThreshold st) / 2) (ssBenefit / 2)
  else
    min ((85 / 100) * (provIncome - ssUpperThreshold st) +
        min ((ssUpperThreshold st - ssLowerThreshold st) / 2) (ssBenefit / 2))
      ((85 / 100) * ssBenefit)

/-- Modelled from the spec: `Psi_n`, the taxable fraction of Social
Security benefits — the dynamic provisional-income computation, unless the
caller pins the optional `tax_fraction` override, which is then used
unchanged. -/
def Psi_n (tax_fraction : Option ℚ) (st : Filing) (provIncome ssBenefit : ℚ) : ℚ :=
  match tax_fraction with
  | some f => f
  | none =>
    if ssBenefit = 0 then 0 else taxableSSAmount st provIncome ssBenefit / ssBenefit

end Owl

namespace Owl

/-!
## Theorems for claims C8 and C9
-/

/-- **C9.** For every path, `load_plugin(path)` either returns the
`RateModel` class defined by the module at that path, or, when the module
defines no `RateModel` attribute, raises
`RuntimeError("Plugin must define class RateModel")`; it never returns or
fails in any other way. -/
theorem load_plugin_spec {α : Type} (loadModule : String → PyModule α) (path : String) :
    (∀ c : α, load_plugin loadModule path = .ok c ↔
      (loadModule path).getattr "RateModel" = some c) ∧
    ((loadModule path).getattr "RateModel" = none →
      load_plugin loadModule path =
        .error (.runtimeError "Plugin must define class RateModel")) ∧
    (∀ e : PyError, load_plugin loadModule path = .error e →
      e = .runtimeError "Plugin must define class RateModel" ∧
      (loadModule path).getattr "RateModel" = none) := by
  cases h : (loadModule path).getattr "RateModel" with
  | some c =>
    have hl : load_plugin loadModule path = .ok c := by
      simp [load_plugin, h]
    refine ⟨fun d => ⟨fun hd => ?_, fun hd => ?_⟩, fun hn => ?_, fun e he => ?_⟩
    · rw [hl] at hd; injection hd with h2; exact h2 ▸ rfl
    · injection hd with h2; exact h2 ▸ hl
    · exact Option.noConfusion hn
    · rw [hl] at he; exact Except.noConfusion he
  | none =>
    have hl : load_plugin loadModule path =
        .error (.runtimeError "Plugin must define class RateModel") := by
      simp [load_plugin, h]
    refine ⟨fun d => ⟨fun hd => ?_, fun hd => ?_⟩, fun _ => hl, fun e he => ?_⟩
    · rw [hl] at hd; exact Except.noConfusion hd
    · exact Option.noConfusion hd
    · rw [hl] at he; injection he with h2; exact ⟨h2.symm, rfl⟩

/-- Witness for C9: a concrete module defining `RateModel` is loaded and
returned; a concrete module without it raises the exact `RuntimeError`. -/
theorem load_plugin_spec_witness :
    load_plugin (fun _ => PyModule.mk [("RateModel", 7)]) "plug.py" = .ok 7 ∧
    load_plugin (fun _ => (PyModule.mk [] : PyModule Nat)) "empty.py" =
      .error (.runtimeError "Plugin must define class RateModel") := by
  constructor
  · exact ((load_plugin_spec (fun _ => PyModule.mk [("RateModel", 7)]) "plug.py").1 7).mpr rfl
  · exact (load_plugin_spec (fun _ => (PyModule.mk [] : PyModule Nat)) "empty.py").2.1 rfl

/-- **C8.** The `user_fixed` rate model: for every 4-element list of
percent values, `__init__` succeeds and `generate()` returns an `N × 4`
matrix each of whose `N` rows equals `values / 100`; the constructor
raises `ValueError` when `values` is missing or does not contain exactly
4 entries. -/
theorem user_fixed_generate_spec (N : Nat) (seed : Option Nat) (repro : Bool)
    (vs : List ℚ) (h4 : vs.length = 4) :
    (∃ m : UserFixedRateModel,
      UserFixedRateModel.init N seed repro (some vs) = .ok m ∧
      m.generate = List.replicate N (vs.map (fun v => v / 100)) ∧
      m.generate.length = N ∧
      ∀ row ∈ m.generate, row = vs.map (fun v => v / 100) ∧ row.length = 4) ∧
    (UserFixedRateModel.init N seed repro none =
      .error (.valueError "UserFixedRateModel requires \x27values\x27 parameter.")) ∧
    (∀ ws : List ℚ, ws.length ≠ 4 →
      UserFixedRateModel.init N seed repro (some ws) =
        .error (.valueError "values must contain 4 entries.")) := by
  refine ⟨⟨⟨N, seed, repro, vs.map (fun v => v / 100)⟩, ?_, rfl, by simp [UserFixedRateModel.generate], ?_⟩, rfl, fun ws hws => by simp [UserFixedRateModel.init, hws]⟩
  · simp [UserFixedRateModel.init, h4]
  · intro row hrow
    have hr : row = vs.map (fun v => v / 100) := by
      simpa [UserFixedRateModel.generate] using (List.eq_of_mem_replicate hrow)
    exact ⟨hr, by simp [hr, h4]⟩

/-- **C10.** `Plan.regenRates` leaves the plan completely unchanged when
there is no stored `_rateModel`, or the stored model's `needs_regen` is
false, or `reproducibleRates` is set and not overridden; only when none
of these holds does it re-invoke `setRates` (with the stored rate
parameters rescaled to percent). -/
theorem regenRates_frame (env : RatesEnv) (p : Plan) (o : Bool)
    (hno : p.rateModel = none ∨
      (∃ m, p.rateModel = some m ∧ m.needs_regen = false) ∨
      (p.reproducibleRates = true ∧ o = false)) :
    regenRates env p o = .ok p ∧
    (∀ m, p.rateModel = some m → m.needs_regen = true →
      ¬ (p.reproducibleRates = true ∧ o = false) →
      regenRates env p o = setRates env p (regenArgs p o)) := by
  constructor
  · rcases hno with h | ⟨m, hm, hr⟩ | ⟨hrep, ho⟩
    · simp [regenRates, h]
    · simp [regenRates, hm, hr]
    · unfold regenRates
      cases hm : p.rateModel with
      | none => rfl
      | some m =>
        by_cases hr : m.needs_regen = false
        · simp [hr]
        · simp [hr, hrep, ho]
  · intro m hm hr hnrep
    have h1 : ¬ (m.needs_regen = false) := by simp [hr]
    have h2 : ¬ (p.reproducibleRates = true ∧ ¬ (o = true)) :=
      fun hx => hnrep ⟨hx.1, by simpa using hx.2⟩
    unfold regenRates
    rw [hm]
    show (if m.needs_regen = false then Except.ok p
      else if p.reproducibleRates = true ∧ ¬ (o = true) then Except.ok p
      else setRates env p (regenArgs p o)) = setRates env p (regenArgs p o)
    rw [if_neg h1, if_neg h2]

/-- Witness for C10: a concrete plan whose stored model has
`needs_regen = False` is returned unchanged. -/
theorem regenRates_frame_witness :
    regenRates
      ⟨fun _ _ _ _ _ => .error (.runtimeError "no plugin"),
        fun _ _ _ _ _ => ⟨[], false⟩, fun t _ _ => t, fun _ => [], 0⟩
      ⟨1, false, none, [], [], "user", none, none, none, none, none, false, 0,
        some ⟨[[.val 1, .val 2, .val 3, .val 4]], false⟩, false, "solved"⟩
      false =
    .ok ⟨1, false, none, [], [], "user", none, none, none, none, none, false, 0,
        some ⟨[[.val 1, .val 2, .val 3, .val 4]], false⟩, false, "solved"⟩ :=
  (regenRates_frame _ _ _
    (Or.inr (Or.inl ⟨⟨[[.val 1, .val 2, .val 3, .val 4]], false⟩, rfl, rfl⟩))).1

/-- Counterexample to **C7** as stated: a model whose `generate()` returns
a correctly-shaped matrix containing a non-finite value (`nan`) is *not*
rejected — `Plan.setRates` accepts it and stores the series. -/
theorem setRates_accepts_nonfinite :
    (nanModel.generate.all (fun r => r.all PyFloat.isFinite)) = false ∧
    matrixShapeIs nanModel.generate 1 4 = true ∧
    exceptIsOk (setRates nanEnv nanPlan nanArgs) = true := by
  refine ⟨rfl, rfl, rfl⟩

/-- **C7 (amended).** Provided the seed logic does not itself raise:
model construction (where required-parameter validation lives) completes
before any series is used, its failure propagating as `setRates`'s own
error; a generated series whose shape differs from `(N_n, 4)` is rejected
with `ValueError("Rate model returned incorrect shape.")`; and a series
of the correct shape is accepted with no finiteness check. -/
theorem setRates_validation (env : RatesEnv) (p : Plan) (a : SetRatesArgs)
    (seed rateSeed2 : Option Nat)
    (hseed : seedLogic p a env.now = .ok (seed, rateSeed2)) :
    (∀ e, constructedModel env p a seed = .error e →
      setRates env p a = .error e) ∧
    (∀ model, constructedModel env p a seed = .ok model →
      matrixShapeIs model.generate p.N_n 4 = false →
      setRates env p a = .error (.valueError "Rate model returned incorrect shape.")) ∧
    (∀ model, constructedModel env p a seed = .ok model →
      matrixShapeIs model.generate p.N_n 4 = true →
      exceptIsOk (setRates env p a) = true) := by
  refine ⟨fun e he => ?_, fun model hm hbad => ?_, fun model hm hok => ?_⟩
  · unfold setRates
    simp only [hseed, he]
  · unfold setRates
    simp only [hseed, hm, hbad]
    simp
  · unfold setRates
    simp only [hseed, hm, hok]
    simp [exceptIsOk]

/-- Witness for the amended C7: a model generating a `2 × 4` series for a
one-year plan is rejected with the exact `ValueError`. -/
theorem setRates_validation_witness :
    seedLogic nanPlan nanArgs 0 = .ok (none, none) ∧
    constructedModel
      ⟨fun _ _ _ _ _ => .error (.runtimeError "no plugin"),
        fun _ _ _ _ _ => ⟨[[.val 1, .val 2, .val 3, .val 4],
          [.val 1, .val 2, .val 3, .val 4]], false⟩,
        fun t _ _ => t, fun _ => [], 0⟩ nanPlan nanArgs none =
      .ok ⟨[[.val 1, .val 2, .val 3, .val 4],
        [.val 1, .val 2, .val 3, .val 4]], false⟩ ∧
    setRates
      ⟨fun _ _ _ _ _ => .error (.runtimeError "no plugin"),
        fun _ _ _ _ _ => ⟨[[.val 1, .val 2, .val 3, .val 4],
          [.val 1, .val 2, .val 3, .val 4]], false⟩,
        fun t _ _ => t, fun _ => [], 0⟩ nanPlan nanArgs =
      .error (.valueError "Rate model returned incorrect shape.") := by
  refine ⟨rfl, rfl, ?_⟩
  exact (setRates_validation _ nanPlan nanArgs none none rfl).2.1 _ rfl rfl

/-- Witness for C8: the documented runtime example, `values = [7, 4, 3, 2.5]`
with `N = 5`, yields five rows of `[0.07, 0.04, 0.03, 0.025]`. -/
theorem user_fixed_generate_spec_witness :
    (7 : ℚ) / 100 = 0.07 ∧
    (∃ m : UserFixedRateModel,
      UserFixedRateModel.init 5 none false (some [7, 4, 3, 2.5]) = .ok m ∧
      m.generate = List.replicate 5 ([7, 4, 3, 2.5].map (fun v : ℚ => v / 100)) ∧
      m.generate.length = 5 ∧
      ∀ row ∈ m.generate, row = [7, 4, 3, 2.5].map (fun v : ℚ => v / 100) ∧
        row.length = 4) := by
  refine ⟨by norm_num, (user_fixed_generate_spec 5 none false [7, 4, 3, 2.5] (by decide)).1⟩

/-- Counterexample to **C1** as stated: under objective `maxSpending` with
neither a bequest nor a net-spending target supplied, the Builder does not
fail with a `ConfigurationError` — per the PARAMETERS.md `solver_options`
table it defaults the bequest target to 1, and the solver is invoked. -/
theorem builder_neither_target_defaults :
    buildMILP ⟨.maxSpending, none, none⟩ = .ok ⟨some 1, none⟩ ∧
    solveScenario (fun _ => ⟨"optimal", 0⟩) ⟨.maxSpending, none, none⟩ =
      .ok ⟨"optimal", 0⟩ := by
  constructor <;> rfl

/-- **C1 (amended).** Supplying both an explicit bequest and an explicit
net-spending target fails with a `ConfigurationError`, and the outcome is
independent of the solver, so no MILP solve is attempted; under
`maxBequest` an omitted net-spending target likewise fails before any
solve; under `maxSpending` an omitted bequest target is defaulted to 1
rather than rejected. -/
theorem builder_target_validation (o : BuilderOptions)
    (s1 s2 : MILPInstance → SolveReport) :
    (o.bequest.isSome = true → o.netSpending.isSome = true →
      solveScenario s1 o =
        .error (.configurationError "both bequest and netSpending targets supplied") ∧
      solveScenario s1 o = solveScenario s2 o) ∧
    (o.objective = .maxBequest → o.netSpending = none →
      solveScenario s1 o =
        .error (.configurationError "netSpending target required for maxBequest") ∧
      solveScenario s1 o = solveScenario s2 o) ∧
    (o.objective = .maxSpending → o.netSpending = none →
      solveScenario s1 o = .ok (s1 ⟨some (o.bequest.getD 1), none⟩)) := by
  refine ⟨fun h1 h2 => ?_, fun h1 h2 => ?_, fun h1 h2 => ?_⟩
  · have hb : buildMILP o =
        .error (.configurationError "both bequest and netSpending targets supplied") := by
      unfold buildMILP
      rw [if_pos ⟨h1, h2⟩]
    constructor
    · unfold solveScenario; rw [hb]
    · unfold solveScenario; rw [hb]
  · have hcond : ¬ (o.bequest.isSome = true ∧ o.netSpending.isSome = true) := by
      intro hx
      have := hx.2
      rw [h2] at this
      exact Bool.noConfusion this
    have hb : buildMILP o =
        .error (.configurationError "netSpending target required for maxBequest") := by
      unfold buildMILP
      rw [if_neg hcond, h1, h2]
    constructor
    · unfold solveScenario; rw [hb]
    · unfold solveScenario; rw [hb]
  · have hcond : ¬ (o.bequest.isSome = true ∧ o.netSpending.isSome = true) := by
      intro hx
      have := hx.2
      rw [h2] at this
      exact Bool.noConfusion this
    have hb : buildMILP o = .ok ⟨some (o.bequest.getD 1), none⟩ := by
      unfold buildMILP
      rw [if_neg hcond, h1]
    unfold solveScenario
    rw [hb]

/-- Witness for the amended C1: supplying both targets yields the exact
`ConfigurationError`, independently of the solver. -/
theorem builder_target_validation_witness :
    solveScenario (fun _ => ⟨"optimal", 0⟩)
        ⟨.maxSpending, some 100, some 50⟩ =
      .error (.configurationError "both bequest and netSpending targets supplied") ∧
    solveScenario (fun _ => ⟨"optimal", 0⟩) ⟨.maxSpending, some 100, some 50⟩ =
      solveScenario (fun _ => ⟨"infeasible", 1⟩) ⟨.maxSpending, some 100, some 50⟩ :=
  (builder_target_validation ⟨.maxSpending, some 100, some 50⟩
    (fun _ => ⟨"optimal", 0⟩) (fun _ => ⟨"infeasible", 1⟩)).1 rfl rfl

/-- **C3.** Accepted-Solution balances satisfy the linear recurrence of
section 4.1; with no deposits, withdrawals, or conversions the balance
series equals hand-computed compound growth exactly, and with a constant
(zero-volatility) return `r` it is the closed form `b0 * (1 + r) ^ t`. -/
theorem balance_recurrence_compound_growth (f : AccountFlows) (b0 : ℚ)
    (hz : ∀ t, f.dep t = 0 ∧ f.wd t = 0 ∧ f.cOut t = 0 ∧ f.cIn t = 0) :
    (∀ t, balanceSeries f b0 (t + 1) =
      nextBalance (balanceSeries f b0 t) (f.ret t) (f.dep t) (f.wd t)
        (f.cOut t) (f.cIn t)) ∧
    (∀ t, balanceSeries f b0 t = compoundGrowth b0 f.ret t) ∧
    (∀ r : ℚ, (∀ t, f.ret t = r) →
      ∀ t, balanceSeries f b0 t = b0 * (1 + r) ^ t) := by
  have hcg : ∀ t, balanceSeries f b0 t = compoundGrowth b0 f.ret t := by
    intro t
    induction t with
    | zero => rfl
    | succ n ih =>
      obtain ⟨h1, h2, h3, h4⟩ := hz n
      simp only [balanceSeries, compoundGrowth, nextBalance, ih, h1, h2, h3, h4]
      ring
  refine ⟨fun t => rfl, hcg, fun r hr t => ?_⟩
  rw [hcg t]
  induction t with
  | zero => simp [compoundGrowth]
  | succ n ih =>
    rw [compoundGrowth, ih, hr n, pow_succ]
    ring

/-- Witness for C3: a $100 balance growing two years at 5 percent with no
flows reaches exactly $110.25. -/
theorem balance_recurrence_compound_growth_witness :
    balanceSeries
        ⟨fun _ => 1 / 20, fun _ => 0, fun _ => 0, fun _ => 0, fun _ => 0⟩
        100 2 = 441 / 4 ∧
    (441 : ℚ) / 4 = 100 * (1 + 1 / 20) ^ 2 := by
  have h := (balance_recurrence_compound_growth
    ⟨fun _ => 1 / 20, fun _ => 0, fun _ => 0, fun _ => 0, fun _ => 0⟩ 100
    (fun _ => ⟨rfl, rfl, rfl, rfl⟩)).2.2 (1 / 20) (fun _ => rfl) 2
  constructor
  · rw [h]; norm_num
  · norm_num

/-- **C4.** In every Solution accepted with the `amoRoth` constraint family
enabled, no account-year has both a strictly positive Roth conversion and a
strictly positive tax-free withdrawal. -/
theorem amoRoth_mutual_exclusion (bigM : ℚ) (s : AmoSolution)
    (hacc : acceptedWithAmoRoth true bigM s) :
    ∀ c ∈ s.cells, ¬ (0 < c.conversion ∧ 0 < c.tfWithdrawal) := by
  intro c hc hpos
  obtain ⟨hconv, hwd⟩ := hpos
  obtain ⟨h0c, h0w, hbc, hbw⟩ := hacc rfl c hc
  cases hf : c.flag with
  | false =>
    rw [hf] at hbc
    simp only [if_neg Bool.false_ne_true, mul_zero] at hbc
    linarith
  | true =>
    rw [hf] at hbw
    simp at hbw
    linarith

/-- Witness for C4: a concrete feasible cell (a $5k conversion, no tax-free
withdrawal, flag set) under big-M 100, where the conclusion holds. -/
theorem amoRoth_mutual_exclusion_witness :
    ¬ (0 < (RothCell.mk 5 0 true).conversion ∧
       0 < (RothCell.mk 5 0 true).tfWithdrawal) :=
  amoRoth_mutual_exclusion 100 ⟨[⟨5, 0, true⟩]⟩
    (fun _ c hc => by
      rw [List.mem_singleton] at hc
      subst hc
      exact ⟨by norm_num, le_refl 0, by norm_num, by norm_num⟩)
    ⟨5, 0, true⟩ (List.mem_singleton.mpr rfl)

/-- `bestObjective` returns `none` exactly on the empty list. -/
theorem bestObjective_eq_none (l : List ℚ) : bestObjective l = none ↔ l = [] := by
  cases l with
  | nil => simp [bestObjective]
  | cons x xs =>
    constructor
    · intro h
      unfold bestObjective at h
      cases hb : bestObjective xs with
      | none => rw [hb] at h; exact Option.noConfusion h
      | some b => rw [hb] at h; exact Option.noConfusion h
    · intro h
      exact List.noConfusion h

/-- The best objective of a list is one of its elements. -/
theorem bestObjective_mem (l : List ℚ) (m : ℚ) (h : bestObjective l = some m) :
    m ∈ l := by
  induction l generalizing m with
  | nil => exact Option.noConfusion h
  | cons x xs ih =>
    unfold bestObjective at h
    cases hb : bestObjective xs with
    | none =>
      rw [hb] at h
      injection h with h
      exact h ▸ List.mem_cons_self x xs
    | some b =>
      rw [hb] at h
      injection h with h
      rcases max_choice x b with hm | hm
      · rw [← h, hm]; exact List.mem_cons_self x xs
      · rw [← h, hm]; exact List.mem_cons_of_mem x (ih b hb)

/-- The best objective bounds every element of the list. -/
theorem bestObjective_le (l : List ℚ) (m : ℚ) (h : bestObjective l = some m) :
    ∀ x ∈ l, x ≤ m := by
  induction l generalizing m with
  | nil => intro x hx; cases hx
  | cons y ys ih =>
    intro x hx
    unfold bestObjective at h
    cases hb : bestObjective ys with
    | none =>
      rw [hb] at h
      injection h with h
      rw [(bestObjective_eq_none ys).mp hb] at hx
      rw [List.mem_singleton] at hx
      rw [hx, h]
    | some b =>
      rw [hb] at h
      injection h with h
      rcases List.mem_cons.mp hx with hx | hx
      · rw [hx, ← h]; exact le_max_left y b
      · exact le_trans (ih b hb x hx) (h ▸ le_max_right y b)

/-- A nonempty list has a best objective. -/
theorem bestObjective_isSome_of_mem (l : List ℚ) (x : ℚ) (h : x ∈ l) :
    ∃ m, bestObjective l = some m := by
  cases l with
  | nil => cases h
  | cons y ys =>
    unfold bestObjective
    cases bestObjective ys with
    | none => exact ⟨y, rfl⟩
    | some b => exact ⟨max y b, rfl⟩

/-- **C5.** Under objective `maxSpending`, raising the bequest target never
increases the achievable optimal net spending: with `b1 ≤ b2`, whenever the
target `b2` is achievable at optimal net spending `v2`, target `b1` is
achievable at some optimal net spending `v1 ≥ v2`. -/
theorem bequest_monotonicity (cands : List PlanOutcome) (b1 b2 : ℚ)
    (hb : b1 ≤ b2) (v2 : ℚ) (h2 : optimalNetSpending cands b2 = some v2) :
    ∃ v1, optimalNetSpending cands b1 = some v1 ∧ v2 ≤ v1 := by
  have hv2mem := bestObjective_mem _ _ h2
  rw [List.mem_map] at hv2mem
  obtain ⟨p, hpf, hpv⟩ := hv2mem
  have hpf1 : p ∈ cands.filter (fun q => decide (b1 ≤ q.finalBequest)) := by
    rw [List.mem_filter] at hpf ⊢
    refine ⟨hpf.1, ?_⟩
    rw [decide_eq_true_eq]
    have := decide_eq_true_eq.mp hpf.2
    linarith
  have hmem1 : v2 ∈ (cands.filter
      (fun q => decide (b1 ≤ q.finalBequest))).map PlanOutcome.netSpending := by
    rw [List.mem_map]
    exact ⟨p, hpf1, hpv⟩
  obtain ⟨v1, hv1⟩ := bestObjective_isSome_of_mem _ _ hmem1
  exact ⟨v1, hv1, bestObjective_le _ _ hv1 _ hmem1⟩

/-- Witness for C5: two candidate plans; raising the bequest target from 5
to 15 drops the achievable net spending from 50 to 40, and the theorem
recovers a `b1`-optimal value at least 40. -/
theorem bequest_monotonicity_witness :
    optimalNetSpending [⟨50, 10⟩, ⟨40, 20⟩] 15 = some 40 ∧
    optimalNetSpending [⟨50, 10⟩, ⟨40, 20⟩] 5 = some 50 ∧
    ∃ v1, optimalNetSpending [⟨50, 10⟩, ⟨40, 20⟩] 5 = some v1 ∧ 40 ≤ v1 := by
  refine ⟨by decide, by decide, ?_⟩
  exact bequest_monotonicity [⟨50, 10⟩, ⟨40, 20⟩] 5 15 (by norm_num) 40 (by decide)

/-- **C6.** The taxable fraction of Social Security benefits: a pinned
`tax_fraction` override is used unchanged; otherwise the
provisional-income formula applies with lower/upper thresholds
$32k/$44k for married filing jointly and $25k/$34k for single, giving
fraction 0 at or below the lower threshold, at most 50 percent up to the
upper threshold, and between 0 and 85 percent always. -/
theorem ss_taxable_fraction_spec (st : Filing) (provIncome ssBenefit : ℚ)
    (hs : 0 < ssBenefit) :
    (∀ f : ℚ, Psi_n (some f) st provIncome ssBenefit = f) ∧
    (ssLowerThreshold .marriedJoint = 32000 ∧
     ssUpperThreshold .marriedJoint = 44000 ∧
     ssLowerThreshold .single = 25000 ∧ ssUpperThreshold .single = 34000) ∧
    (provIncome ≤ ssLowerThreshold st →
      Psi_n none st provIncome ssBenefit = 0) ∧
    (provIncome ≤ ssUpperThreshold st →
      Psi_n none st provIncome ssBenefit ≤ 1 / 2) ∧
    (0 ≤ Psi_n none st provIncome ssBenefit ∧
     Psi_n none st provIncome ssBenefit ≤ 85 / 100) := by
  have hne : ssBenefit ≠ 0 := ne_of_gt hs
  have hlohi : ssLowerThreshold st < ssUpperThreshold st := by
    cases st <;> norm_num [ssLowerThreshold, ssUpperThreshold]
  have hfrac : Psi_n none st provIncome ssBenefit =
      taxableSSAmount st provIncome ssBenefit / ssBenefit := by
    unfold Psi_n
    rw [if_neg hne]
  have key : 0 ≤ taxableSSAmount st provIncome ssBenefit ∧
      taxableSSAmount st provIncome ssBenefit ≤ 85 / 100 * ssBenefit := by
    unfold taxableSSAmount
    by_cases h1 : provIncome ≤ ssLowerThreshold st
    · rw [if_pos h1]
      constructor
      · exact le_refl 0
      · linarith
    · rw [if_neg h1]
      by_cases h2 : provIncome ≤ ssUpperThreshold st
      · rw [if_pos h2]
        constructor
        · apply le_min
          · have := not_le.mp h1
            linarith
          · linarith
        · calc min ((provIncome - ssLowerThreshold st) / 2) (ssBenefit / 2)
              ≤ ssBenefit / 2 := min_le_right _ _
            _ ≤ 85 / 100 * ssBenefit := by linarith
      · rw [if_neg h2]
        constructor
        · apply le_min
          · have h3 := not_le.mp h2
            have h4 : (0 : ℚ) ≤ 85 / 100 * (provIncome - ssUpperThreshold st) := by
              apply mul_nonneg
              · norm_num
              · linarith
            have h5 : (0 : ℚ) ≤
                min ((ssUpperThreshold st - ssLowerThreshold st) / 2) (ssBenefit / 2) := by
              apply le_min <;> linarith
            linarith
          · apply mul_nonneg
            · norm_num
            · linarith
        · exact min_le_right _ _
  refine ⟨fun f => rfl, by norm_num [ssLowerThreshold, ssUpperThreshold], ?_, ?_, ?_⟩
  · intro hlow
    rw [hfrac]
    unfold taxableSSAmount
    rw [if_pos hlow]
    exact zero_div ssBenefit
  · intro hup
    by_cases hlow : provIncome ≤ ssLowerThreshold st
    · rw [hfrac]
      unfold taxableSSAmount
      rw [if_pos hlow, zero_div]
      norm_num
    · rw [hfrac, div_le_iff₀ hs]
      unfold taxableSSAmount
      rw [if_neg hlow, if_pos hup]
      calc min ((provIncome - ssLowerThreshold st) / 2) (ssBenefit / 2)
          ≤ ssBenefit / 2 := min_le_right _ _
        _ ≤ 1 / 2 * ssBenefit := by linarith
  · constructor
    · rw [hfrac]
      exact div_nonneg key.1 (le_of_lt hs)
    · rw [hfrac, div_le_iff₀ hs]
      exact key.2

/-- Witness for C6: benefits of $10k; the pinned override 1/2 is returned
unchanged, and at provisional income $20k (below the $32k MFJ threshold)
the dynamic fraction is 0. -/
theorem ss_taxable_fraction_spec_witness :
    (0 : ℚ) < 10000 ∧
    Psi_n (some (1 / 2)) .marriedJoint 20000 10000 = 1 / 2 ∧
    Psi_n none .marriedJoint 20000 10000 = 0 := by
  have h := ss_taxable_fraction_spec .marriedJoint 20000 10000 (by norm_num)
  refine ⟨by norm_num, h.1 (1 / 2), h.2.2.1 ?_⟩
  norm_num [ssLowerThreshold]

/-- `selectConservative` on a nonempty list returns a member whose
objective is least. -/
theorem selectConservative_min (c : Candidate) (cs : List Candidate) :
    ∃ m, selectConservative (c :: cs) = some m ∧ m ∈ c :: cs ∧
      ∀ d ∈ c :: cs, m.objective ≤ d.objective := by
  induction cs generalizing c with
  | nil =>
    refine ⟨c, rfl, List.mem_singleton.mpr rfl, ?_⟩
    intro d hd
    rw [List.mem_singleton] at hd
    rw [hd]
  | cons e es ih =>
    obtain ⟨m, hm, hmem, hle⟩ := ih (minCand c e)
    refine ⟨m, hm, ?_, ?_⟩
    · rcases List.mem_cons.mp hmem with h | h
      · unfold minCand at h
        split at h
        · rw [h]
          exact List.mem_cons_of_mem _ (List.mem_cons_self _ _)
        · rw [h]
          exact List.mem_cons_self _ _
      · exact List.mem_cons_of_mem _ (List.mem_cons_of_mem _ h)
    · intro d hd
      have hminc : (minCand c e).objective ≤ c.objective := by
        unfold minCand
        split
        · exact le_of_lt (by assumption)
        · exact le_refl _
      have hmine : (minCand c e).objective ≤ e.objective := by
        unfold minCand
        split
        · exact le_refl _
        · exact le_of_not_lt (by assumption)
      have hm0 : m.objective ≤ (minCand c e).objective :=
        hle _ (List.mem_cons_self _ _)
      rcases List.mem_cons.mp hd with h | h
      · rw [h]
        exact le_trans hm0 hminc
      · rcases List.mem_cons.mp h with h2 | h2
        · rw [h2]
          exact le_trans hm0 hmine
        · exact hle d (List.mem_cons_of_mem _ h2)

/-- `ratAbs` is the absolute value. -/
theorem ratAbs_eq_abs (q : ℚ) : ratAbs q = |q| := by
  unfold ratAbs
  rcases lt_or_le q 0 with h | h
  · rw [if_pos h, abs_of_neg h]
  · rw [if_neg (not_lt.mpr h), abs_of_nonneg h]

/-- **C2.** Whenever the Controller detects an oscillating objective
sequence, it emits an accepted Solution carrying the `OscillationDetected`
warning — never a hard failure — whose candidate belongs to the near-equal
window, has the smallest objective value there, lies within `nearTol` of
every window candidate, and is a function of the history alone, so two
runs on identical inputs select the same candidate. -/
theorem oscillation_recovery (hist : List Candidate) (nearTol convTol : ℚ)
    (hdet : detectOscillation hist nearTol convTol = true) :
    ∃ c, resolveOscillation hist nearTol convTol =
        some (.accepted c [.oscillationDetected]) ∧
      c ∈ hist.take 4 ∧
      (∀ d ∈ hist.take 4, c.objective ≤ d.objective) ∧
      (∀ d ∈ hist.take 4, |c.objective - d.objective| ≤ nearTol) ∧
      (∀ hist2, hist2 = hist →
        resolveOscillation hist2 nearTol convTol =
          resolveOscillation hist nearTol convTol) := by
  obtain ⟨c1, t, hhist⟩ : ∃ c1 t, hist = c1 :: t := by
    cases hist with
    | nil => simp [detectOscillation] at hdet
    | cons a b => exact ⟨a, b, rfl⟩
  subst hhist
  obtain ⟨c2, rest, ht⟩ : ∃ c2 rest, t = c2 :: rest := by
    cases t with
    | nil => simp [detectOscillation] at hdet
    | cons a b => exact ⟨a, b, rfl⟩
  subst ht
  have hnear : nearEqualWindow
      (((c1 :: c2 :: rest).take 4).map Candidate.objective) nearTol = true := by
    simp only [detectOscillation, Bool.and_eq_true] at hdet
    exact hdet.1.2
  have hpair : ∀ x ∈ (c1 :: c2 :: rest).take 4, ∀ y ∈ (c1 :: c2 :: rest).take 4,
      |x.objective - y.objective| ≤ nearTol := by
    intro x hx y hy
    have h1 := List.all_eq_true.mp hnear _ (List.mem_map_of_mem Candidate.objective hx)
    have h2 := List.all_eq_true.mp h1 _ (List.mem_map_of_mem Candidate.objective hy)
    rw [← ratAbs_eq_abs]
    exact decide_eq_true_eq.mp h2
  obtain ⟨m, hsel, hmem, hmin⟩ := selectConservative_min c1 ((c2 :: rest).take 3)
  have htake : (c1 :: c2 :: rest).take 4 = c1 :: (c2 :: rest).take 3 := rfl
  have hmem4 : m ∈ (c1 :: c2 :: rest).take 4 := by
    rw [htake]
    exact hmem
  have hres : resolveOscillation (c1 :: c2 :: rest) nearTol convTol =
      some (.accepted m [.oscillationDetected]) := by
    unfold resolveOscillation
    rw [if_pos hdet, htake, hsel]
  refine ⟨m, hres, hmem4, ?_, ?_, fun hist2 he => by rw [he]⟩
  · intro d hd
    rw [htake] at hd
    exact hmin d hd
  · intro d hd
    exact hpair m hmem4 d hd

/-- Witness for C2: a four-iterate history alternating between objectives
10 and 11 (within near-tolerance 2, above convergence tolerance 1/2) is
detected as oscillating, and the Controller accepts the earliest
lowest-objective candidate with the `OscillationDetected` warning. -/
theorem oscillation_recovery_witness :
    detectOscillation [⟨10, 1⟩, ⟨11, 2⟩, ⟨10, 3⟩, ⟨11, 4⟩] 2 (1 / 2) = true ∧
    resolveOscillation [⟨10, 1⟩, ⟨11, 2⟩, ⟨10, 3⟩, ⟨11, 4⟩] 2 (1 / 2) =
      some (.accepted ⟨10, 1⟩ [.oscillationDetected]) ∧
    (∃ c, resolveOscillation [⟨10, 1⟩, ⟨11, 2⟩, ⟨10, 3⟩, ⟨11, 4⟩] 2 (1 / 2) =
        some (.accepted c [.oscillationDetected]) ∧
      c ∈ [Candidate.mk 10 1, ⟨11, 2⟩, ⟨10, 3⟩, ⟨11, 4⟩].take 4 ∧
      (∀ d ∈ [Candidate.mk 10 1, ⟨11, 2⟩, ⟨10, 3⟩, ⟨11, 4⟩].take 4,
        c.objective ≤ d.objective) ∧
      (∀ d ∈ [Candidate.mk 10 1, ⟨11, 2⟩, ⟨10, 3⟩, ⟨11, 4⟩].take 4,
        |c.objective - d.objective| ≤ 2) ∧
      (∀ hist2, hist2 = [Candidate.mk 10 1, ⟨11, 2⟩, ⟨10, 3⟩, ⟨11, 4⟩] →
        resolveOscillation hist2 2 (1 / 2) =
          resolveOscillation [⟨10, 1⟩, ⟨11, 2⟩, ⟨10, 3⟩, ⟨11, 4⟩] 2 (1 / 2))) := by
  refine ⟨by norm_num [detectOscillation, nearEqualWindow, ratAbs], ?_, ?_⟩
  · norm_num [resolveOscillation, detectOscillation, nearEqualWindow, ratAbs,
      selectConservative, minCand]
  · exact oscillation_recovery [⟨10, 1⟩, ⟨11, 2⟩, ⟨10, 3⟩, ⟨11, 4⟩] 2 (1 / 2)
      (by norm_num [detectOscillation, nearEqualWindow, ratAbs])

end Owl
